import Mathlib

/-!
Verification of the JWT claim-mapping core of the ssi-sdk repository
(`src/credential/integrity/jwt.go`).

The Go functions `JWTClaimSetFromVC`, `ParseVerifiableCredentialFromToken`,
`SignVerifiableCredentialJWT`, `SignVerifiablePresentationJWT`,
`ParseVerifiablePresentationFromJWT` and `VerifyVerifiablePresentationJWT`
are embedded as pure Lean functions.  External collaborators that are not
part of the repository source (the jwx signing/parsing library, the
`credential` model package, `VerifyCredentialSignature`, the uuid
generator) are modelled from the specification: the claim set is a mapping
from claim names to values, the external signer/verifier/per-credential
verifier are oracle parameters, and the freshly minted nonce is an explicit
argument.
-/

namespace SSI

/-- A value stored in a credential subject (Go `map[string]any`): either a
JSON string or some other JSON value, kept opaque (only string values are
ever inspected by the code under verification). -/
inductive SubjVal where
  | str (s : String)
  | other (tag : Nat)
deriving DecidableEq

/-- A credential subject: Go `map[string]any`, which may be `nil`
(`none`) or an allocated map, modelled as an association list whose first
binding for a key is its value. -/
abbrev Subject := Option (List (String × SubjVal))

/-- First value bound to `k` in an association list (Go map lookup). -/
def lookupKey : List (String × SubjVal) → String → Option SubjVal
  | [], _ => none
  | (k', v) :: rest, k => if k' = k then some v else lookupKey rest k

/-- Removal of every binding of `k` (Go `delete(m, k)`). -/
def eraseKey : List (String × SubjVal) → String → List (String × SubjVal)
  | [], _ => []
  | (k', v) :: rest, k =>
      if k' = k then eraseKey rest k else (k', v) :: eraseKey rest k

/-- Go `CredentialSubject.GetID()`: the `id` entry when it exists and is a
string, otherwise the empty string (also on a `nil` map). -/
def subjectGetID : Subject → String
  | none => ""
  | some l =>
      match lookupKey l "id" with
      | some (.str s) => s
      | _ => ""

/-- Go `delete(subject, "id")`: a no-op on a `nil` map. -/
def subjectEraseID : Subject → Subject
  | none => none
  | some l => some (eraseKey l "id")

/-- Go `subject["id"] = s` preceded by `make(map[string]any)` when the map
is `nil` (lines 195-198 of the source). -/
def subjectSetID (subj : Subject) (s : String) : Subject :=
  match subj with
  | none => some [("id", .str s)]
  | some l => some (("id", .str s) :: eraseKey l "id")

/-- The credential model (`credential.VerifiableCredential`), which is not
under `src/`.  Modelled from the spec: issuer (string identity, the empty
string standing for the absent/nil issuer since only string-form issuers
are supported in this encoding), subject, id, issuance date, expiration
date, optional embedded proof (contents opaque). -/
structure VerifiableCredential where
  Issuer : String := ""
  ID : String := ""
  CredentialSubject : Subject := none
  IssuanceDate : String := ""
  ExpirationDate : String := ""
  Proof : Option Unit := none
deriving DecidableEq

/-- Go `cred.IsEmpty()`: deep equality with the zero credential. -/
def VerifiableCredential.IsEmpty (c : VerifiableCredential) : Bool :=
  decide (c = {})

/-- An entry of a presentation's credential list (Go `[]any`): either a
compact signed token or a credential object. -/
inductive EmbeddedCredential where
  | token (s : String)
  | obj (c : VerifiableCredential)
deriving DecidableEq

/-- The presentation model (`credential.VerifiablePresentation`), not under
`src/`.  Modelled from the spec: holder (string identity), id, ordered
list of credentials, optional proof. -/
structure VerifiablePresentation where
  Holder : String := ""
  ID : String := ""
  VerifiableCredential : List EmbeddedCredential := []
  Proof : Option Unit := none
deriving DecidableEq

/-- Go `presentation.IsEmpty()`: deep equality with the zero value. -/
def VerifiablePresentation.IsEmpty (p : VerifiablePresentation) : Bool :=
  decide (p = {})

/-- A time value held by a registered date claim (`exp`, `iat`, `nbf`).
Modelled from the spec: the external JWT library stores dates as time
values; a date supplied as an RFC3339 string is stored as a time value
whose RFC3339 rendering is that string, and a date supplied as epoch
seconds is stored as an epoch time value. -/
inductive TimeVal where
  | ofString (s : String)
  | ofEpoch (n : Int)
deriving DecidableEq

/-- Modelled from the spec: `time.Format(time.RFC3339)` of the external
library.  A time value created from an RFC3339 string renders back to that
string; the rendering of an epoch value is abstracted (no verified claim
depends on its exact text). -/
def TimeVal.formatRFC3339 : TimeVal → String
  | .ofString s => s
  | .ofEpoch n => toString n

/-- A JWT claim value: a string, a time value, an audience list, an
embedded credential object or an embedded presentation object. -/
inductive ClaimValue where
  | str (s : String)
  | time (t : TimeVal)
  | aud (l : List String)
  | vcObj (c : VerifiableCredential)
  | vpObj (p : VerifiablePresentation)
deriving DecidableEq

/-- A JWT claim set (`jwt.Token` of the external library, per the spec a
mapping from claim name to value), modelled as an association list whose
first binding for a claim name is its value. -/
abbrev JWTToken := List (String × ClaimValue)

deriving instance DecidableEq for Except

/-- Claim lookup (`token.Get(k)` of the external library). -/
def getClaim : JWTToken → String → Option ClaimValue
  | [], _ => none
  | (k', v) :: rest, k => if k' = k then some v else getClaim rest k

/-- Removal of every binding of claim `k`. -/
def removeClaim : JWTToken → String → JWTToken
  | [], _ => []
  | (k', v) :: rest, k =>
      if k' = k then removeClaim rest k else (k', v) :: removeClaim rest k

/-- Claim assignment (`t.Set(k, v)` of the external library): overwrites
any previous binding of `k`. -/
def setClaim (t : JWTToken) (k : String) (v : ClaimValue) : JWTToken :=
  (k, v) :: removeClaim t k

theorem getClaim_setClaim_same (t : JWTToken) (k : String) (v : ClaimValue) :
    getClaim (setClaim t k v) k = some v := by
  simp [setClaim, getClaim]

theorem getClaim_removeClaim_same (t : JWTToken) (k : String) :
    getClaim (removeClaim t k) k = none := by
  induction t with
  | nil => simp [removeClaim, getClaim]
  | cons hd tl ih =>
      obtain ⟨k', v'⟩ := hd
      by_cases h : k' = k
      · simp [removeClaim, h, ih]
      · simp [removeClaim, getClaim, h, ih]

theorem getClaim_removeClaim_of_ne (t : JWTToken) (k k' : String)
    (h : k' ≠ k) : getClaim (removeClaim t k) k' = getClaim t k' := by
  induction t with
  | nil => simp [removeClaim]
  | cons hd tl ih =>
      obtain ⟨k₀, v₀⟩ := hd
      by_cases h₀ : k₀ = k
      · subst h₀
        simp [removeClaim, getClaim, Ne.symm h, ih]
      · by_cases h₁ : k₀ = k'
        · subst h₁
          simp [removeClaim, getClaim, h₀]
        · simp [removeClaim, getClaim, h₀, h₁, ih]

theorem getClaim_setClaim_of_ne (t : JWTToken) (k k' : String)
    (v : ClaimValue) (h : k' ≠ k) :
    getClaim (setClaim t k v) k' = getClaim t k' := by
  simp [setClaim, getClaim, Ne.symm h, getClaim_removeClaim_of_ne t k k' h]

/-- Go `JWTClaimSetFromVC` (src/credential/integrity/jwt.go, lines 61-113):
builds the claim set for a credential.  The freshly generated
`uuid.New().String()` is the explicit `nonce` argument.  Because Go structs
are passed by value while Go maps are reference values, the caller's view
of the call consists of the claim set together with the final contents of
the shared credential-subject map (the `delete` on line 106 is the only
mutation that reaches storage shared with the caller); the function
therefore returns both. -/
def JWTClaimSetFromVC (cred : VerifiableCredential) (nonce : String) :
    JWTToken × Subject :=
  -- lines 63-70: expirationDate (if non-empty) → exp, then cleared on the copy
  let t1 : JWTToken :=
    if cred.ExpirationDate = "" then []
    else setClaim [] "exp" (.time (.ofString cred.ExpirationDate))
  let cred1 :=
    if cred.ExpirationDate = "" then cred else { cred with ExpirationDate := "" }
  -- lines 72-74: nonce, always set
  let t2 := setClaim t1 "nonce" (.str nonce)
  -- lines 76-80: issuer → iss, then cleared on the copy
  let t3 := setClaim t2 "iss" (.str cred1.Issuer)
  let cred2 := { cred1 with Issuer := "" }
  -- lines 82-89: issuanceDate → iat and nbf, then cleared on the copy
  let t4 := setClaim t3 "iat" (.time (.ofString cred2.IssuanceDate))
  let t5 := setClaim t4 "nbf" (.time (.ofString cred2.IssuanceDate))
  let cred3 := { cred2 with IssuanceDate := "" }
  -- lines 91-98: id (if non-empty) → jti, then cleared on the copy
  let t6 := if cred3.ID = "" then t5 else setClaim t5 "jti" (.str cred3.ID)
  let cred4 := if cred3.ID = "" then cred3 else { cred3 with ID := "" }
  -- lines 100-107: subject id (if non-empty) → sub, then deleted from the map
  let subVal := subjectGetID cred4.CredentialSubject
  let t7 := if subVal = "" then t6 else setClaim t6 "sub" (.str subVal)
  let cred5 :=
    if subVal = "" then cred4
    else { cred4 with CredentialSubject := subjectEraseID cred4.CredentialSubject }
  -- lines 109-112: remaining credential → vc
  (setClaim t7 "vc" (.vcObj cred5), cred5.CredentialSubject)

/-- Go `json.Marshal` of a claim value followed by `json.Unmarshal` into a
`VerifiableCredential` (lines 158-165).  A credential object deserializes
to itself; a presentation object is a JSON object as well, so decoding
succeeds and fills the JSON fields the two models share (`id`, `proof`);
any non-object claim value (string, time, array) fails to unmarshal into a
struct. -/
def unmarshalVC : ClaimValue → Except String VerifiableCredential
  | .vcObj c => .ok c
  | .vpObj p => .ok { ID := p.ID, Proof := p.Proof }
  | _ => .error "reconstructing Verifiable Credential"

/-- Lines 167-171 of `ParseVerifiableCredentialFromToken`: overlay `jti`
(string, non-empty) onto the id. -/
def overlayJTI (token : JWTToken) (cred : VerifiableCredential) :
    VerifiableCredential :=
  match getClaim token "jti" with
  | some (.str s) => if s = "" then cred else { cred with ID := s }
  | _ => cred

/-- Lines 173-177: overlay `iat` (time value) onto the issuance date,
RFC3339-formatted. -/
def overlayIAT (token : JWTToken) (cred : VerifiableCredential) :
    VerifiableCredential :=
  match getClaim token "iat" with
  | some (.time tv) => { cred with IssuanceDate := tv.formatRFC3339 }
  | _ => cred

/-- Lines 179-183: overlay `exp` (time value) onto the expiration date,
RFC3339-formatted. -/
def overlayEXP (token : JWTToken) (cred : VerifiableCredential) :
    VerifiableCredential :=
  match getClaim token "exp" with
  | some (.time tv) => { cred with ExpirationDate := tv.formatRFC3339 }
  | _ => cred

/-- Lines 185-190: overlay `iss` (string, non-empty) onto the issuer. -/
def overlayISS (token : JWTToken) (cred : VerifiableCredential) :
    VerifiableCredential :=
  match getClaim token "iss" with
  | some (.str s) => if s = "" then cred else { cred with Issuer := s }
  | _ => cred

/-- Lines 192-199: overlay `sub` (string, non-empty) onto the subject's
`id` entry, creating the subject map when it is `nil`. -/
def overlaySUB (token : JWTToken) (cred : VerifiableCredential) :
    VerifiableCredential :=
  match getClaim token "sub" with
  | some (.str s) =>
      if s = "" then cred
      else { cred with CredentialSubject := subjectSetID cred.CredentialSubject s }
  | _ => cred

/-- Go `ParseVerifiableCredentialFromToken` (lines 152-202): extracts the
`vc` claim (fatal if absent), deserializes it, then leniently overlays
`jti`, `iat`, `exp`, `iss` and `sub`, in source order. -/
def ParseVerifiableCredentialFromToken (token : JWTToken) :
    Except String VerifiableCredential :=
  match getClaim token "vc" with
  | none => .error "did not find vc property in token"
  | some vcClaim =>
    match unmarshalVC vcClaim with
    | .error e => .error e
    | .ok cred0 =>
        .ok (overlaySUB token (overlayISS token (overlayEXP token
              (overlayIAT token (overlayJTI token cred0)))))

theorem lookupKey_eraseKey_same (l : List (String × SubjVal)) (k : String) :
    lookupKey (eraseKey l k) k = none := by
  induction l with
  | nil => simp [eraseKey, lookupKey]
  | cons hd tl ih =>
      obtain ⟨k', v'⟩ := hd
      by_cases h : k' = k
      · simp [eraseKey, h, ih]
      · simp [eraseKey, lookupKey, h, ih]

theorem subjectGetID_subjectEraseID (subj : Subject) :
    subjectGetID (subjectEraseID subj) = "" := by
  cases subj with
  | none => simp [subjectEraseID, subjectGetID]
  | some l => simp [subjectEraseID, subjectGetID, lookupKey_eraseKey_same]

theorem subjectGetID_subjectSetID (subj : Subject) (s : String) :
    subjectGetID (subjectSetID subj s) = s := by
  cases subj <;> simp [subjectSetID, subjectGetID, lookupKey]

/-- C1: for every credential with no pre-existing proof and at least one
populated field, signing with `SignVerifiableCredentialJWT` (whose claim
set is built by `JWTClaimSetFromVC`) and then reconstructing via
`ParseVerifiableCredentialFromToken` applied to the signed token's claim
set succeeds and yields a credential whose issuer, id, subject `id` entry,
issuance date and expiration date equal those of the original
credential. -/
theorem vc_sign_then_parse_preserves_fields
    (cred : VerifiableCredential) (nonce : String)
    (hproof : cred.Proof = none) (hne : cred.IsEmpty = false) :
    (ParseVerifiableCredentialFromToken (JWTClaimSetFromVC cred nonce).1).map
        (fun c' => (c'.Issuer, c'.ID, subjectGetID c'.CredentialSubject,
                    c'.IssuanceDate, c'.ExpirationDate)) =
      .ok (cred.Issuer, cred.ID, subjectGetID cred.CredentialSubject,
           cred.IssuanceDate, cred.ExpirationDate) := by
  by_cases hExp : cred.ExpirationDate = "" <;>
    by_cases hID : cred.ID = "" <;>
      by_cases hIss : cred.Issuer = "" <;>
        by_cases hSub : subjectGetID cred.CredentialSubject = "" <;>
          simp [JWTClaimSetFromVC, ParseVerifiableCredentialFromToken,
                overlayJTI, overlayIAT, overlayEXP, overlayISS, overlaySUB,
                unmarshalVC, TimeVal.formatRFC3339, getClaim_setClaim_same,
                getClaim_setClaim_of_ne, getClaim, hExp, hID, hIss, hSub,
                subjectGetID_subjectSetID, subjectGetID_subjectEraseID,
                Except.map]

/-- Concrete instantiation of `vc_sign_then_parse_preserves_fields`. -/
def wCred : VerifiableCredential :=
  { Issuer := "did:example:123", ID := "urn:uuid:abc",
    CredentialSubject := some [("id", SubjVal.str "did:example:456")],
    IssuanceDate := "2021-01-01T00:00:00Z",
    ExpirationDate := "2031-01-01T00:00:00Z" }

/-- Witness for C1 at a concrete credential. -/
theorem vc_sign_then_parse_preserves_fields_witness :
    (ParseVerifiableCredentialFromToken (JWTClaimSetFromVC wCred "nonce-a").1).map
        (fun c' => (c'.Issuer, c'.ID, subjectGetID c'.CredentialSubject,
                    c'.IssuanceDate, c'.ExpirationDate)) =
      .ok (wCred.Issuer, wCred.ID, subjectGetID wCred.CredentialSubject,
           wCred.IssuanceDate, wCred.ExpirationDate) :=
  vc_sign_then_parse_preserves_fields wCred "nonce-a" (by decide) (by decide)

theorem overlayJTI_IssuanceDate (token : JWTToken) (c : VerifiableCredential) :
    (overlayJTI token c).IssuanceDate = c.IssuanceDate := by
  unfold overlayJTI; split
  · split <;> rfl
  · rfl

theorem overlayJTI_ExpirationDate (token : JWTToken) (c : VerifiableCredential) :
    (overlayJTI token c).ExpirationDate = c.ExpirationDate := by
  unfold overlayJTI; split
  · split <;> rfl
  · rfl

theorem overlayJTI_Issuer (token : JWTToken) (c : VerifiableCredential) :
    (overlayJTI token c).Issuer = c.Issuer := by
  unfold overlayJTI; split
  · split <;> rfl
  · rfl

theorem overlayJTI_CredentialSubject (token : JWTToken) (c : VerifiableCredential) :
    (overlayJTI token c).CredentialSubject = c.CredentialSubject := by
  unfold overlayJTI; split
  · split <;> rfl
  · rfl

theorem overlayIAT_ID (token : JWTToken) (c : VerifiableCredential) :
    (overlayIAT token c).ID = c.ID := by
  unfold overlayIAT; split <;> rfl

theorem overlayIAT_ExpirationDate (token : JWTToken) (c : VerifiableCredential) :
    (overlayIAT token c).ExpirationDate = c.ExpirationDate := by
  unfold overlayIAT; split <;> rfl

theorem overlayIAT_Issuer (token : JWTToken) (c : VerifiableCredential) :
    (overlayIAT token c).Issuer = c.Issuer := by
  unfold overlayIAT; split <;> rfl

theorem overlayIAT_CredentialSubject (token : JWTToken) (c : VerifiableCredential) :
    (overlayIAT token c).CredentialSubject = c.CredentialSubject := by
  unfold overlayIAT; split <;> rfl

theorem overlayEXP_ID (token : JWTToken) (c : VerifiableCredential) :
    (overlayEXP token c).ID = c.ID := by
  unfold overlayEXP; split <;> rfl

theorem overlayEXP_IssuanceDate (token : JWTToken) (c : VerifiableCredential) :
    (overlayEXP token c).IssuanceDate = c.IssuanceDate := by
  unfold overlayEXP; split <;> rfl

theorem overlayEXP_Issuer (token : JWTToken) (c : VerifiableCredential) :
    (overlayEXP token c).Issuer = c.Issuer := by
  unfold overlayEXP; split <;> rfl

theorem overlayEXP_CredentialSubject (token : JWTToken) (c : VerifiableCredential) :
    (overlayEXP token c).CredentialSubject = c.CredentialSubject := by
  unfold overlayEXP; split <;> rfl

theorem overlayISS_ID (token : JWTToken) (c : VerifiableCredential) :
    (overlayISS token c).ID = c.ID := by
  unfold overlayISS; split
  · split <;> rfl
  · rfl

theorem overlayISS_IssuanceDate (token : JWTToken) (c : VerifiableCredential) :
    (overlayISS token c).IssuanceDate = c.IssuanceDate := by
  unfold overlayISS; split
  · split <;> rfl
  · rfl

theorem overlayISS_ExpirationDate (token : JWTToken) (c : VerifiableCredential) :
    (overlayISS token c).ExpirationDate = c.ExpirationDate := by
  unfold overlayISS; split
  · split <;> rfl
  · rfl

theorem overlayISS_CredentialSubject (token : JWTToken) (c : VerifiableCredential) :
    (overlayISS token c).CredentialSubject = c.CredentialSubject := by
  unfold overlayISS; split
  · split <;> rfl
  · rfl

theorem overlaySUB_ID (token : JWTToken) (c : VerifiableCredential) :
    (overlaySUB token c).ID = c.ID := by
  unfold overlaySUB; split
  · split <;> rfl
  · rfl

theorem overlaySUB_IssuanceDate (token : JWTToken) (c : VerifiableCredential) :
    (overlaySUB token c).IssuanceDate = c.IssuanceDate := by
  unfold overlaySUB; split
  · split <;> rfl
  · rfl

theorem overlaySUB_ExpirationDate (token : JWTToken) (c : VerifiableCredential) :
    (overlaySUB token c).ExpirationDate = c.ExpirationDate := by
  unfold overlaySUB; split
  · split <;> rfl
  · rfl

theorem overlaySUB_Issuer (token : JWTToken) (c : VerifiableCredential) :
    (overlaySUB token c).Issuer = c.Issuer := by
  unfold overlaySUB; split
  · split <;> rfl
  · rfl

theorem overlayJTI_hit (token : JWTToken) (c : VerifiableCredential)
    (s : String) (hs : s ≠ "") (h : getClaim token "jti" = some (.str s)) :
    overlayJTI token c = { c with ID := s } := by
  unfold overlayJTI; rw [h]; simp [hs]

theorem overlayJTI_skip (token : JWTToken) (c : VerifiableCredential)
    (h : ∀ s, s ≠ "" → getClaim token "jti" ≠ some (.str s)) :
    overlayJTI token c = c := by
  unfold overlayJTI
  rcases hg : getClaim token "jti" with _ | v
  · rfl
  · rcases v with s | tv | l | c' | p
    · by_cases hs : s = ""
      · simp [hs]
      · exact absurd hg (h s hs)
    all_goals rfl

theorem overlayIAT_hit (token : JWTToken) (c : VerifiableCredential)
    (tv : TimeVal) (h : getClaim token "iat" = some (.time tv)) :
    overlayIAT token c = { c with IssuanceDate := tv.formatRFC3339 } := by
  unfold overlayIAT; rw [h]

theorem overlayIAT_skip (token : JWTToken) (c : VerifiableCredential)
    (h : ∀ tv, getClaim token "iat" ≠ some (.time tv)) :
    overlayIAT token c = c := by
  unfold overlayIAT
  rcases hg : getClaim token "iat" with _ | v
  · rfl
  · rcases v with s | tv | l | c' | p
    · rfl
    · exact absurd hg (h tv)
    all_goals rfl

theorem overlayEXP_hit (token : JWTToken) (c : VerifiableCredential)
    (tv : TimeVal) (h : getClaim token "exp" = some (.time tv)) :
    overlayEXP token c = { c with ExpirationDate := tv.formatRFC3339 } := by
  unfold overlayEXP; rw [h]

theorem overlayEXP_skip (token : JWTToken) (c : VerifiableCredential)
    (h : ∀ tv, getClaim token "exp" ≠ some (.time tv)) :
    overlayEXP token c = c := by
  unfold overlayEXP
  rcases hg : getClaim token "exp" with _ | v
  · rfl
  · rcases v with s | tv | l | c' | p
    · rfl
    · exact absurd hg (h tv)
    all_goals rfl

theorem overlayISS_hit (token : JWTToken) (c : VerifiableCredential)
    (s : String) (hs : s ≠ "") (h : getClaim token "iss" = some (.str s)) :
    overlayISS token c = { c with Issuer := s } := by
  unfold overlayISS; rw [h]; simp [hs]

theorem overlayISS_skip (token : JWTToken) (c : VerifiableCredential)
    (h : ∀ s, s ≠ "" → getClaim token "iss" ≠ some (.str s)) :
    overlayISS token c = c := by
  unfold overlayISS
  rcases hg : getClaim token "iss" with _ | v
  · rfl
  · rcases v with s | tv | l | c' | p
    · by_cases hs : s = ""
      · simp [hs]
      · exact absurd hg (h s hs)
    all_goals rfl

theorem overlaySUB_hit (token : JWTToken) (c : VerifiableCredential)
    (s : String) (hs : s ≠ "") (h : getClaim token "sub" = some (.str s)) :
    overlaySUB token c =
      { c with CredentialSubject := subjectSetID c.CredentialSubject s } := by
  unfold overlaySUB; rw [h]; simp [hs]

theorem overlaySUB_skip (token : JWTToken) (c : VerifiableCredential)
    (h : ∀ s, s ≠ "" → getClaim token "sub" ≠ some (.str s)) :
    overlaySUB token c = c := by
  unfold overlaySUB
  rcases hg : getClaim token "sub" with _ | v
  · rfl
  · rcases v with s | tv | l | c' | p
    · by_cases hs : s = ""
      · simp [hs]
      · exact absurd hg (h s hs)
    all_goals rfl

/-- C6 counterexample: a token whose `vc` claim is present but holds a
JSON string; deserializing it into a credential object fails, so
`ParseVerifiableCredentialFromToken` fails even though the `vc` claim
exists. -/
theorem parse_vc_present_nonobject_fails :
    getClaim [("vc", ClaimValue.str "hello")] "vc" =
        some (ClaimValue.str "hello") ∧
    ParseVerifiableCredentialFromToken [("vc", ClaimValue.str "hello")] =
      .error "reconstructing Verifiable Credential" :=
  ⟨by decide, by decide⟩

/-- C6 (amended): `ParseVerifiableCredentialFromToken` fails iff the `vc`
claim is absent or its value does not deserialize into a credential
object; once the `vc` claim deserializes, parsing never fails, and each
optional claim `jti`, `iat`, `exp`, `iss`, `sub` is overlaid only when
present and of the expected type, absence or a type mismatch (or the empty
string) being treated as "not present" rather than an error. -/
theorem parse_vc_failure_and_leniency (token : JWTToken) :
    (getClaim token "vc" = none →
      ParseVerifiableCredentialFromToken token =
        .error "did not find vc property in token") ∧
    (∀ v e, getClaim token "vc" = some v → unmarshalVC v = .error e →
      ParseVerifiableCredentialFromToken token = .error e) ∧
    (∀ v cred0, getClaim token "vc" = some v → unmarshalVC v = .ok cred0 →
      ∃ c', ParseVerifiableCredentialFromToken token = .ok c' ∧
        (∀ s, s ≠ "" → getClaim token "jti" = some (.str s) → c'.ID = s) ∧
        ((∀ s, s ≠ "" → getClaim token "jti" ≠ some (.str s)) →
          c'.ID = cred0.ID) ∧
        (∀ tv, getClaim token "iat" = some (.time tv) →
          c'.IssuanceDate = tv.formatRFC3339) ∧
        ((∀ tv, getClaim token "iat" ≠ some (.time tv)) →
          c'.IssuanceDate = cred0.IssuanceDate) ∧
        (∀ tv, getClaim token "exp" = some (.time tv) →
          c'.ExpirationDate = tv.formatRFC3339) ∧
        ((∀ tv, getClaim token "exp" ≠ some (.time tv)) →
          c'.ExpirationDate = cred0.ExpirationDate) ∧
        (∀ s, s ≠ "" → getClaim token "iss" = some (.str s) →
          c'.Issuer = s) ∧
        ((∀ s, s ≠ "" → getClaim token "iss" ≠ some (.str s)) →
          c'.Issuer = cred0.Issuer) ∧
        (∀ s, s ≠ "" → getClaim token "sub" = some (.str s) →
          c'.CredentialSubject = subjectSetID cred0.CredentialSubject s) ∧
        ((∀ s, s ≠ "" → getClaim token "sub" ≠ some (.str s)) →
          c'.CredentialSubject = cred0.CredentialSubject)) := by
  refine ⟨?_, ?_, ?_⟩
  · intro h
    simp [ParseVerifiableCredentialFromToken, h]
  · intro v e hv he
    simp [ParseVerifiableCredentialFromToken, hv, he]
  · intro v cred0 hv hok
    refine ⟨overlaySUB token (overlayISS token (overlayEXP token
        (overlayIAT token (overlayJTI token cred0)))),
      by simp [ParseVerifiableCredentialFromToken, hv, hok],
      ?_, ?_, ?_, ?_, ?_, ?_, ?_, ?_, ?_, ?_⟩
    · intro s hs h
      rw [overlaySUB_ID, overlayISS_ID, overlayEXP_ID, overlayIAT_ID,
          overlayJTI_hit token cred0 s hs h]
    · intro h
      rw [overlaySUB_ID, overlayISS_ID, overlayEXP_ID, overlayIAT_ID,
          overlayJTI_skip token cred0 h]
    · intro tv h
      rw [overlaySUB_IssuanceDate, overlayISS_IssuanceDate,
          overlayEXP_IssuanceDate, overlayIAT_hit token _ tv h]
    · intro h
      rw [overlaySUB_IssuanceDate, overlayISS_IssuanceDate,
          overlayEXP_IssuanceDate, overlayIAT_skip token _ h,
          overlayJTI_IssuanceDate]
    · intro tv h
      rw [overlaySUB_ExpirationDate, overlayISS_ExpirationDate,
          overlayEXP_hit token _ tv h]
    · intro h
      rw [overlaySUB_ExpirationDate, overlayISS_ExpirationDate,
          overlayEXP_skip token _ h, overlayIAT_ExpirationDate,
          overlayJTI_ExpirationDate]
    · intro s hs h
      rw [overlaySUB_Issuer, overlayISS_hit token _ s hs h]
    · intro h
      rw [overlaySUB_Issuer, overlayISS_skip token _ h, overlayEXP_Issuer,
          overlayIAT_Issuer, overlayJTI_Issuer]
    · intro s hs h
      rw [overlaySUB_hit token _ s hs h]
      simp only [overlayISS_CredentialSubject, overlayEXP_CredentialSubject,
          overlayIAT_CredentialSubject, overlayJTI_CredentialSubject]
    · intro h
      rw [overlaySUB_skip token _ h, overlayISS_CredentialSubject,
          overlayEXP_CredentialSubject, overlayIAT_CredentialSubject,
          overlayJTI_CredentialSubject]

/-- Witness for C6 at a concrete token carrying a deserializable `vc`
claim and a well-typed `jti` claim. -/
theorem parse_vc_failure_and_leniency_witness :
    (ParseVerifiableCredentialFromToken
        [("vc", ClaimValue.vcObj {}), ("jti", ClaimValue.str "urn:x")]).map
      (fun c' => c'.ID) = .ok "urn:x" := by
  obtain ⟨c', hok, hhit, -, -, -, -, -, -, -, -, -⟩ :=
    (parse_vc_failure_and_leniency
        [("vc", ClaimValue.vcObj {}), ("jti", ClaimValue.str "urn:x")]).2.2
      (ClaimValue.vcObj {}) {} (by decide) (by decide)
  rw [hok]
  simp [Except.map, hhit "urn:x" (by decide) (by decide)]

theorem JWTClaimSetFromVC_sharedSubject (cred : VerifiableCredential)
    (nonce : String) :
    (JWTClaimSetFromVC cred nonce).2 =
      if subjectGetID cred.CredentialSubject = "" then cred.CredentialSubject
      else subjectEraseID cred.CredentialSubject := by
  by_cases hExp : cred.ExpirationDate = "" <;>
    by_cases hID : cred.ID = "" <;>
      by_cases hSub : subjectGetID cred.CredentialSubject = "" <;>
        simp [JWTClaimSetFromVC, hExp, hID, hSub]

/-- The caller's view of its credential after `JWTClaimSetFromVC` returns:
Go passes the struct by value, so the caller keeps its own scalar fields,
but the subject map header refers to storage shared with the callee, so
the caller sees the map contents the call left behind. -/
def callerCredentialAfterClaimSet (cred : VerifiableCredential)
    (nonce : String) : VerifiableCredential :=
  { cred with CredentialSubject := (JWTClaimSetFromVC cred nonce).2 }

/-- C9: the caller's scalar fields (issuer, id, issuance date, expiration
date) are unchanged by `JWTClaimSetFromVC`, but when the subject mapping
contains a non-empty `id` entry that entry is deleted from the caller's
own subject mapping; when it does not, the shared mapping is untouched. -/
theorem claimset_frame_effect_on_caller (cred : VerifiableCredential)
    (nonce : String) :
    (callerCredentialAfterClaimSet cred nonce).Issuer = cred.Issuer ∧
    (callerCredentialAfterClaimSet cred nonce).ID = cred.ID ∧
    (callerCredentialAfterClaimSet cred nonce).IssuanceDate =
      cred.IssuanceDate ∧
    (callerCredentialAfterClaimSet cred nonce).ExpirationDate =
      cred.ExpirationDate ∧
    (subjectGetID cred.CredentialSubject ≠ "" →
      (callerCredentialAfterClaimSet cred nonce).CredentialSubject =
          subjectEraseID cred.CredentialSubject ∧
      subjectGetID
          (callerCredentialAfterClaimSet cred nonce).CredentialSubject =
        "") ∧
    (subjectGetID cred.CredentialSubject = "" →
      (callerCredentialAfterClaimSet cred nonce).CredentialSubject =
        cred.CredentialSubject) := by
  refine ⟨rfl, rfl, rfl, rfl, ?_, ?_⟩
  · intro h
    constructor
    · simp [callerCredentialAfterClaimSet, JWTClaimSetFromVC_sharedSubject, h]
    · simp [callerCredentialAfterClaimSet, JWTClaimSetFromVC_sharedSubject, h,
            subjectGetID_subjectEraseID]
  · intro h
    simp [callerCredentialAfterClaimSet, JWTClaimSetFromVC_sharedSubject, h]

/-- Witness for C9 at a concrete credential whose subject has a non-empty
`id` entry. -/
theorem claimset_frame_effect_on_caller_witness :
    subjectGetID wCred.CredentialSubject ≠ "" ∧
    (callerCredentialAfterClaimSet wCred "nonce-b").CredentialSubject =
        subjectEraseID wCred.CredentialSubject ∧
    subjectGetID
        (callerCredentialAfterClaimSet wCred "nonce-b").CredentialSubject =
      "" :=
  ⟨by decide,
   (claimset_frame_effect_on_caller wCred "nonce-b").2.2.2.2.1 (by decide)⟩

/-- The signer capability (`jwx.Signer`, not under src/).  Modelled from
the spec: identity, optional key-id, algorithm label; the private-key
handle is opaque and lives inside the signing oracle. -/
structure Signer where
  ID : String := ""
  KID : String := ""
  ALG : String := ""
deriving DecidableEq

/-- The verifier capability (`jwx.Verifier`, not under src/).  Modelled
from the spec: identity and optional key-id; the signature-checking
capability is an oracle. -/
structure Verifier where
  ID : String := ""
  KID : String := ""
deriving DecidableEq

/-- Go `JWTVVPParameters` (lines 205-210): optional audience list
(`none` models a nil slice) and optional expiration. -/
structure JWTVVPParameters where
  Audience : Option (List String) := none
  Expiration : Int := 0
deriving DecidableEq

/-- Lines 41-46 / 274-279: the protected JWS headers, with a kid entry
only when the signer declares one. -/
def protectedHeaders (signer : Signer) : List (String × String) :=
  if signer.KID = "" then [] else [("kid", signer.KID)]

/-- Lines 49-52 / 281-284: the explicit Ed25519 alias for the registry's
canonical EdDSA name. -/
def resolveSignatureAlg (alg : String) : String :=
  if alg = "Ed25519" then "EdDSA" else alg

/-- The external `jwt.Sign` primitive: algorithm name, protected headers
and claim set, producing the compact serialized token. -/
abbrev SignOracle :=
  String → List (String × String) → JWTToken → Except String String

/-- Go `SignVerifiableCredentialJWT` (lines 28-58): precondition checks,
claim-set construction via `JWTClaimSetFromVC`, then delegation to the
external signing primitive, whose failure is wrapped with the
"signing JWT credential" context. -/
def SignVerifiableCredentialJWT (signOracle : SignOracle) (signer : Signer)
    (cred : VerifiableCredential) (nonce : String) : Except String String :=
  if cred.IsEmpty then .error "credential cannot be empty"
  else if cred.Proof ≠ none then
    .error "credential cannot already have a proof"
  else
    match signOracle (resolveSignatureAlg signer.ALG)
        (protectedHeaders signer) (JWTClaimSetFromVC cred nonce).1 with
    | .error e => .error ("signing JWT credential: " ++ e)
    | .ok signed => .ok signed

/-- Lines 215-272 of `SignVerifiablePresentationJWT`: the claim set handed
to `jwt.Sign`.  `now` is `time.Now().Unix()` and `nonce` the freshly
generated uuid, both supplied by the environment. -/
def SignVerifiablePresentationJWTClaims (signer : Signer)
    (parameters : Option JWTVVPParameters)
    (presentation : VerifiablePresentation) (now : Int) (nonce : String) :
    Except String JWTToken :=
  if presentation.IsEmpty then .error "presentation cannot be empty"
  else if presentation.Proof ≠ none then
    .error "presentation cannot have a proof"
  else
    -- lines 228-232: aud only when an audience list was supplied
    let t1 : JWTToken :=
      match parameters with
      | some ps =>
          match ps.Audience with
          | some a => setClaim [] "aud" (.aud a)
          | none => []
      | none => []
    -- lines 233-239: iat and nbf both from the current time
    let t2 := setClaim t1 "iat" (.time (.ofEpoch now))
    let t3 := setClaim t2 "nbf" (.time (.ofEpoch now))
    -- lines 241-243: fresh nonce, always set
    let t4 := setClaim t3 "nonce" (.str nonce)
    -- lines 245-249: exp only for a positive expiration
    let t5 :=
      match parameters with
      | some ps =>
          if ps.Expiration > 0 then
            setClaim t4 "exp" (.time (.ofEpoch ps.Expiration))
          else t4
      | none => t4
    -- lines 252-258: id (if non-empty) → jti, removed from the VP
    let t6 :=
      if presentation.ID = "" then t5
      else setClaim t5 "jti" (.str presentation.ID)
    let pres1 :=
      if presentation.ID = "" then presentation
      else { presentation with ID := "" }
    -- lines 259-268: holder (if non-empty) must match the signer, → iss
    if presentation.Holder = "" then .ok (setClaim t6 "vp" (.vpObj pres1))
    else if presentation.Holder ≠ signer.ID then
      .error "holder must be the same as the signer"
    else
      let t7 := setClaim t6 "iss" (.str presentation.Holder)
      let pres2 := { pres1 with Holder := "" }
      .ok (setClaim t7 "vp" (.vpObj pres2))

/-- Go `SignVerifiablePresentationJWT` (lines 214-290): claim-set
construction followed by delegation to the external signing primitive. -/
def SignVerifiablePresentationJWT (signOracle : SignOracle) (signer : Signer)
    (parameters : Option JWTVVPParameters)
    (presentation : VerifiablePresentation) (now : Int) (nonce : String) :
    Except String String :=
  match SignVerifiablePresentationJWTClaims signer parameters presentation
      now nonce with
  | .error e => .error e
  | .ok t =>
      match signOracle (resolveSignatureAlg signer.ALG)
          (protectedHeaders signer) t with
      | .error e => .error ("signing JWT presentation: " ++ e)
      | .ok signed => .ok signed

/-- Go marshal/unmarshal of the vp claim into a `VerifiablePresentation`
(lines 357-364): a presentation object deserializes to itself; a
credential object is a JSON object as well and shares the `id` and
`proof` fields; any non-object value fails to unmarshal into a struct. -/
def unmarshalVP : ClaimValue → Except String VerifiablePresentation
  | .vpObj p => .ok p
  | .vcObj c => .ok { ID := c.ID, Proof := c.Proof }
  | _ => .error "reconstructing Verifiable Presentation"

/-- Go `ParseVerifiablePresentationFromJWT` (lines 348-390).  The external
`jwt.Parse` of the raw token is the `parseResult` argument; the JWS
headers, which no verified property inspects, are omitted from the
result. -/
def ParseVerifiablePresentationFromJWT
    (parseResult : Except String JWTToken) :
    Except String (JWTToken × VerifiablePresentation) :=
  match parseResult with
  | .error e => .error ("parsing vp token: " ++ e)
  | .ok parsed =>
    match getClaim parsed "vp" with
    | none => .error "did not find vp property in token"
    | some vpClaim =>
      match unmarshalVP vpClaim with
      | .error e => .error e
      | .ok pres0 =>
        -- lines 372-381: mandatory iss (string, possibly empty) → holder
        match getClaim parsed "iss" with
        | none => .error "did not find iss property in token"
        | some (.str issStr) =>
            let pres1 := { pres0 with Holder := issStr }
            -- lines 383-387: optional jti (string, non-empty) → id
            let pres2 :=
              match getClaim parsed "jti" with
              | some (.str s) => if s = "" then pres1 else { pres1 with ID := s }
              | _ => pres1
            .ok (parsed, pres2)
        | some _ => .error "issuer property is not a string"

/-- The per-credential signature verification
(`VerifyCredentialSignature`, part of the repository but not under src/).
Modelled from the spec: an oracle that, given an embedded credential,
reports whether its signature verifies, or an error (e.g. a resolution
failure). -/
abbrev CredVerifyOracle := EmbeddedCredential → Except String Bool

/-- Lines 327-338 of `VerifyVerifiablePresentationJWT`: the per-credential
loop, checking embedded credentials strictly in order with the running
index `i`.  Besides the loop's outcome, the second component counts the
credentials actually checked (oracle calls made), which the pure embedding
makes observable. -/
def verifyPresentationCredentials (credVerify : CredVerifyOracle) :
    List EmbeddedCredential → Nat → Except String Unit × Nat
  | [], _ => (.ok (), 0)
  | c :: rest, i =>
      match credVerify c with
      | .error e =>
          (.error ("verifying credential " ++ toString i ++ ": " ++ e), 1)
      | .ok false =>
          (.error ("credential " ++ toString i ++
            " failed signature validation"), 1)
      | .ok true =>
          let r := verifyPresentationCredentials credVerify rest (i + 1)
          (r.1, r.2 + 1)

/-- Go `%s` rendering of a string slice, used in the audience-mismatch
error. -/
def goFormatStringSlice (l : List String) : String :=
  "[" ++ String.intercalate " " l ++ "]"

/-- `vpToken.Audience()` of the external library: the aud claim as a
string list, empty when the claim is absent. -/
def tokenAudience (t : JWTToken) : List String :=
  match getClaim t "aud" with
  | some (.aud l) => l
  | _ => []

/-- Lines 314-321: the audience loop, matching each entry against the
verifier's identity or key-id. -/
def audienceMatches (verifier : Verifier) : List String → Bool
  | [] => false
  | a :: rest =>
      if a = verifier.ID ∨ a = verifier.KID then true
      else audienceMatches verifier rest

/-- Go `VerifyVerifiablePresentationJWT` (lines 297-342).  The resolver is
opaque and only its presence is observable (`hasResolver`); `outerVerify`
is the external Verifier's verdict on the raw token; `parseResult` is the
external `jwt.Parse` of the raw token; `credVerify` is the per-credential
verification oracle. -/
def VerifyVerifiablePresentationJWT (hasResolver : Bool)
    (verifier : Verifier) (outerVerify : Except String Unit)
    (parseResult : Except String JWTToken) (credVerify : CredVerifyOracle) :
    Except String (JWTToken × VerifiablePresentation) :=
  if hasResolver = false then .error "r cannot be empty"
  else
    match outerVerify with
    | .error e => .error ("verifying JWT and its signature: " ++ e)
    | .ok _ =>
      match ParseVerifiablePresentationFromJWT parseResult with
      | .error e => .error ("parsing VP from JWT: " ++ e)
      | .ok (vpToken, vp) =>
        -- lines 313-325: audience check, skipped on an empty audience
        if (tokenAudience vpToken).length ≠ 0 ∧
            audienceMatches verifier (tokenAudience vpToken) = false then
          .error ("audience mismatch: expected [" ++ verifier.ID ++
            "] or [" ++ verifier.KID ++ "], got " ++
            goFormatStringSlice (tokenAudience vpToken))
        else
          -- lines 327-338: per-credential verification, failing fast
          match (verifyPresentationCredentials credVerify
              vp.VerifiableCredential 0).1 with
          | .error e => .error e
          | .ok _ => .ok (vpToken, vp)

/-- C7: both signing functions fail on an empty input and on an input
that already carries a proof, and presentation signing additionally fails
when a non-empty holder differs from the signer's identity; each of these
failures is produced for every signing oracle, i.e. before any signing
work is delegated to the Signer. -/
theorem sign_precondition_failures_before_delegation
    (signer : Signer) (parameters : Option JWTVVPParameters)
    (cred : VerifiableCredential) (pres : VerifiablePresentation)
    (now : Int) (nonce : String) (signOracle : SignOracle) :
    (cred.IsEmpty = true →
      SignVerifiableCredentialJWT signOracle signer cred nonce =
        .error "credential cannot be empty") ∧
    (cred.IsEmpty = false → cred.Proof ≠ none →
      SignVerifiableCredentialJWT signOracle signer cred nonce =
        .error "credential cannot already have a proof") ∧
    (pres.IsEmpty = true →
      SignVerifiablePresentationJWT signOracle signer parameters pres
          now nonce =
        .error "presentation cannot be empty") ∧
    (pres.IsEmpty = false → pres.Proof ≠ none →
      SignVerifiablePresentationJWT signOracle signer parameters pres
          now nonce =
        .error "presentation cannot have a proof") ∧
    (pres.IsEmpty = false → pres.Proof = none → pres.Holder ≠ "" →
      pres.Holder ≠ signer.ID →
      SignVerifiablePresentationJWT signOracle signer parameters pres
          now nonce =
        .error "holder must be the same as the signer") := by
  refine ⟨?_, ?_, ?_, ?_, ?_⟩
  · intro h
    simp [SignVerifiableCredentialJWT, h]
  · intro h1 h2
    simp [SignVerifiableCredentialJWT, h1, h2]
  · intro h
    simp [SignVerifiablePresentationJWT,
          SignVerifiablePresentationJWTClaims, h]
  · intro h1 h2
    simp [SignVerifiablePresentationJWT,
          SignVerifiablePresentationJWTClaims, h1, h2]
  · intro h1 h2 h3 h4
    simp [SignVerifiablePresentationJWT,
          SignVerifiablePresentationJWTClaims, h1, h2, h3, h4]

/-- Witness for C7: an empty credential and a holder-signer mismatch at
concrete inputs, under a signing oracle that would succeed. -/
theorem sign_precondition_failures_before_delegation_witness :
    SignVerifiableCredentialJWT (fun _ _ _ => .ok "tok") { ID := "did:s" }
        {} "n" =
      .error "credential cannot be empty" ∧
    SignVerifiablePresentationJWT (fun _ _ _ => .ok "tok") { ID := "did:s" }
        none { Holder := "did:h", VerifiableCredential := [.token "t1"] }
        0 "n" =
      .error "holder must be the same as the signer" :=
  ⟨(sign_precondition_failures_before_delegation { ID := "did:s" } none {}
      { Holder := "did:h", VerifiableCredential := [.token "t1"] } 0 "n"
      (fun _ _ _ => .ok "tok")).1 (by decide),
   (sign_precondition_failures_before_delegation { ID := "did:s" } none {}
      { Holder := "did:h", VerifiableCredential := [.token "t1"] } 0 "n"
      (fun _ _ _ => .ok "tok")).2.2.2.2 (by decide) (by decide) (by decide)
      (by decide)⟩

theorem JWTClaimSetFromVC_nonce (cred : VerifiableCredential)
    (nonce : String) :
    getClaim (JWTClaimSetFromVC cred nonce).1 "nonce" =
      some (.str nonce) := by
  by_cases hExp : cred.ExpirationDate = "" <;>
    by_cases hID : cred.ID = "" <;>
      by_cases hSub : subjectGetID cred.CredentialSubject = "" <;>
        simp [JWTClaimSetFromVC, hExp, hID, hSub, getClaim_setClaim_same,
              getClaim_setClaim_of_ne]

theorem SignVPClaims_nonce (signer : Signer)
    (parameters : Option JWTVVPParameters)
    (pres : VerifiablePresentation) (now : Int) (nonce : String)
    (t : JWTToken)
    (h : SignVerifiablePresentationJWTClaims signer parameters pres now
        nonce = .ok t) :
    getClaim t "nonce" = some (.str nonce) := by
  rcases parameters with _ | ps
  · by_cases hE : pres.IsEmpty <;>
      by_cases hP : pres.Proof = none <;>
        by_cases hID : pres.ID = "" <;>
          by_cases hH : pres.Holder = "" <;>
            by_cases hHS : pres.Holder = signer.ID <;>
              simp [SignVerifiablePresentationJWTClaims, hE, hP, hID, hH,
                    hHS] at h <;>
                first
                | (subst h;
                   simp [getClaim_setClaim_same, getClaim_setClaim_of_ne])
                | (rw [if_neg (hHS ▸ hH)] at h
                   simp only [Except.ok.injEq] at h
                   subst h
                   simp [getClaim_setClaim_same, getClaim_setClaim_of_ne])
  · rcases hA : ps.Audience with _ | a <;>
      by_cases hX : ps.Expiration > 0 <;>
        by_cases hE : pres.IsEmpty <;>
          by_cases hP : pres.Proof = none <;>
            by_cases hID : pres.ID = "" <;>
              by_cases hH : pres.Holder = "" <;>
                by_cases hHS : pres.Holder = signer.ID <;>
                  simp [SignVerifiablePresentationJWTClaims, hA, hX, hE,
                        hP, hID, hH, hHS] at h <;>
                    first
                    | (subst h;
                       simp [getClaim_setClaim_same,
                             getClaim_setClaim_of_ne])
                    | (rw [if_neg (hHS ▸ hH)] at h
                       simp only [Except.ok.injEq] at h
                       subst h
                       simp [getClaim_setClaim_same,
                             getClaim_setClaim_of_ne])

/-- Whether the subject mapping has an `id` entry at all. -/
def subjectHasID : Subject → Bool
  | none => false
  | some l => (lookupKey l "id").isSome

theorem subjectHasID_subjectEraseID (subj : Subject) :
    subjectHasID (subjectEraseID subj) = false := by
  cases subj <;>
    simp [subjectEraseID, subjectHasID, lookupKey_eraseKey_same]

/-- The credential object embedded in a claim set's `vc` claim. -/
def vcPayload (t : JWTToken) : Option VerifiableCredential :=
  match getClaim t "vc" with
  | some (.vcObj c) => some c
  | _ => none

/-- The presentation object embedded in a claim set's `vp` claim. -/
def vpPayload (t : JWTToken) : Option VerifiablePresentation :=
  match getClaim t "vp" with
  | some (.vpObj p) => some p
  | _ => none

/-- C5: whenever the forward mappings promote a credential/presentation
field to a registered claim, that field is cleared in the embedded vc/vp
payload (absent from its JSON rendering, all fields being omitempty): the
vc payload's issuer and issuance date are always cleared since `iss` and
`iat`/`nbf` are always set; its expiration date is cleared whenever `exp`
is set, its id whenever `jti` is set, and its subject loses its `id`
entry whenever `sub` is set; the vp payload's id is cleared whenever
`jti` is set and its holder whenever `iss` is set. -/
theorem promoted_claims_stripped_from_payload
    (cred : VerifiableCredential) (nonce : String) (signer : Signer)
    (parameters : Option JWTVVPParameters) (pres : VerifiablePresentation)
    (now : Int) :
    ((vcPayload (JWTClaimSetFromVC cred nonce).1).map (fun c => c.Issuer) =
        some "" ∧
     (vcPayload (JWTClaimSetFromVC cred nonce).1).map
        (fun c => c.IssuanceDate) = some "" ∧
     (getClaim (JWTClaimSetFromVC cred nonce).1 "exp" ≠ none →
       (vcPayload (JWTClaimSetFromVC cred nonce).1).map
          (fun c => c.ExpirationDate) = some "") ∧
     (getClaim (JWTClaimSetFromVC cred nonce).1 "jti" ≠ none →
       (vcPayload (JWTClaimSetFromVC cred nonce).1).map (fun c => c.ID) =
         some "") ∧
     (getClaim (JWTClaimSetFromVC cred nonce).1 "sub" ≠ none →
       (vcPayload (JWTClaimSetFromVC cred nonce).1).map
          (fun c => subjectHasID c.CredentialSubject) = some false)) ∧
    (∀ t, SignVerifiablePresentationJWTClaims signer parameters pres now
        nonce = .ok t →
      (vpPayload t).isSome = true ∧
      (getClaim t "jti" ≠ none →
        (vpPayload t).map (fun p => p.ID) = some "") ∧
      (getClaim t "iss" ≠ none →
        (vpPayload t).map (fun p => p.Holder) = some "")) := by
  constructor
  · by_cases hExp : cred.ExpirationDate = "" <;>
      by_cases hID : cred.ID = "" <;>
        by_cases hSub : subjectGetID cred.CredentialSubject = "" <;>
          simp [JWTClaimSetFromVC, vcPayload, hExp, hID, hSub, getClaim,
                getClaim_setClaim_same, getClaim_setClaim_of_ne,
                subjectHasID_subjectEraseID]
  · intro t h
    rcases parameters with _ | ps
    · by_cases hE : pres.IsEmpty <;>
        by_cases hP : pres.Proof = none <;>
          by_cases hID : pres.ID = "" <;>
            by_cases hH : pres.Holder = "" <;>
              by_cases hHS : pres.Holder = signer.ID <;>
                simp [SignVerifiablePresentationJWTClaims, hE, hP, hID, hH,
                      hHS] at h <;>
                  first
                  | (subst h;
                     simp [vpPayload, getClaim, getClaim_setClaim_same,
                           getClaim_setClaim_of_ne])
                  | (rw [if_neg (hHS ▸ hH)] at h
                     simp only [Except.ok.injEq] at h
                     subst h
                     simp [vpPayload, getClaim, getClaim_setClaim_same,
                           getClaim_setClaim_of_ne])
    · rcases hA : ps.Audience with _ | a <;>
        by_cases hX : ps.Expiration > 0 <;>
          by_cases hE : pres.IsEmpty <;>
            by_cases hP : pres.Proof = none <;>
              by_cases hID : pres.ID = "" <;>
                by_cases hH : pres.Holder = "" <;>
                  by_cases hHS : pres.Holder = signer.ID <;>
                    simp [SignVerifiablePresentationJWTClaims, hA, hX, hE,
                          hP, hID, hH, hHS] at h <;>
                      first
                      | (subst h;
                         simp [vpPayload, getClaim, getClaim_setClaim_same,
                               getClaim_setClaim_of_ne])
                      | (rw [if_neg (hHS ▸ hH)] at h
                         simp only [Except.ok.injEq] at h
                         subst h
                         simp [vpPayload, getClaim, getClaim_setClaim_same,
                               getClaim_setClaim_of_ne])

/-- Witness for C5: the spec's concrete case, a credential with issuer
`did:example:123`, id `urn:uuid:abc` and subject id `did:example:456`. -/
theorem promoted_claims_stripped_from_payload_witness :
    (getClaim (JWTClaimSetFromVC wCred "nonce-c").1 "jti" ≠ none →
      (vcPayload (JWTClaimSetFromVC wCred "nonce-c").1).map
        (fun c => c.ID) = some "") ∧
    (getClaim (JWTClaimSetFromVC wCred "nonce-c").1 "sub" ≠ none →
      (vcPayload (JWTClaimSetFromVC wCred "nonce-c").1).map
        (fun c => subjectHasID c.CredentialSubject) = some false) ∧
    (∀ t, SignVerifiablePresentationJWTClaims { ID := "did:h" } none
        { Holder := "did:h", ID := "urn:uuid:p",
          VerifiableCredential := [.token "t1"] } 0 "nonce-d" = .ok t →
      (vpPayload t).isSome = true ∧
      (getClaim t "jti" ≠ none →
        (vpPayload t).map (fun p => p.ID) = some "") ∧
      (getClaim t "iss" ≠ none →
        (vpPayload t).map (fun p => p.Holder) = some "")) :=
  ⟨(promoted_claims_stripped_from_payload wCred "nonce-c" { ID := "did:h" }
      none { Holder := "did:h", ID := "urn:uuid:p",
             VerifiableCredential := [.token "t1"] } 0).1.2.2.2.1,
   (promoted_claims_stripped_from_payload wCred "nonce-c" { ID := "did:h" }
      none { Holder := "did:h", ID := "urn:uuid:p",
             VerifiableCredential := [.token "t1"] } 0).1.2.2.2.2,
   (promoted_claims_stripped_from_payload wCred "nonce-d" { ID := "did:h" }
      none { Holder := "did:h", ID := "urn:uuid:p",
             VerifiableCredential := [.token "t1"] } 0).2⟩

/-- C8: every signing call sets a `nonce` claim, to the freshly minted
uuid, and two signing calls on an identical credential/presentation with
distinct fresh nonces produce tokens whose nonce claims differ. -/
theorem nonce_always_set_and_fresh (cred : VerifiableCredential)
    (signer : Signer) (parameters : Option JWTVVPParameters)
    (pres : VerifiablePresentation) (now now' : Int) (n1 n2 : String) :
    getClaim (JWTClaimSetFromVC cred n1).1 "nonce" = some (.str n1) ∧
    (∀ t, SignVerifiablePresentationJWTClaims signer parameters pres now
        n1 = .ok t →
      getClaim t "nonce" = some (.str n1)) ∧
    (n1 ≠ n2 →
      getClaim (JWTClaimSetFromVC cred n1).1 "nonce" ≠
        getClaim (JWTClaimSetFromVC cred n2).1 "nonce") ∧
    (n1 ≠ n2 → ∀ t1 t2,
      SignVerifiablePresentationJWTClaims signer parameters pres now n1 =
        .ok t1 →
      SignVerifiablePresentationJWTClaims signer parameters pres now' n2 =
        .ok t2 →
      getClaim t1 "nonce" ≠ getClaim t2 "nonce") := by
  refine ⟨JWTClaimSetFromVC_nonce cred n1, ?_, ?_, ?_⟩
  · intro t h
    exact SignVPClaims_nonce signer parameters pres now n1 t h
  · intro hn
    rw [JWTClaimSetFromVC_nonce, JWTClaimSetFromVC_nonce]
    simp [hn]
  · intro hn t1 t2 h1 h2
    rw [SignVPClaims_nonce signer parameters pres now n1 t1 h1,
        SignVPClaims_nonce signer parameters pres now' n2 t2 h2]
    simp [hn]

/-- Witness for C8: two concrete signing calls on the same presentation
with distinct fresh nonces. -/
theorem nonce_always_set_and_fresh_witness :
    getClaim (JWTClaimSetFromVC wCred "uuid-1").1 "nonce" =
      some (.str "uuid-1") ∧
    ("uuid-1" : String) ≠ "uuid-2" ∧
    getClaim (JWTClaimSetFromVC wCred "uuid-1").1 "nonce" ≠
      getClaim (JWTClaimSetFromVC wCred "uuid-2").1 "nonce" :=
  ⟨(nonce_always_set_and_fresh wCred {} none {} 0 0 "uuid-1" "uuid-2").1,
   by decide,
   (nonce_always_set_and_fresh wCred {} none {} 0 0 "uuid-1"
      "uuid-2").2.2.1 (by decide)⟩

/-- C2 counterexample: a non-empty presentation with no proof whose
(empty) holder equals the signer's (empty) identity signs successfully,
but no `iss` claim is promoted, so decoding the result fails on the
mandatory issuer instead of yielding the original presentation. -/
theorem vp_roundtrip_empty_holder_fails :
    ({ ID := "urn:uuid:p", VerifiableCredential := [.token "t1"] } :
        VerifiablePresentation).IsEmpty = false ∧
    ({ ID := "urn:uuid:p", VerifiableCredential := [.token "t1"] } :
        VerifiablePresentation).Proof = none ∧
    ({ ID := "urn:uuid:p", VerifiableCredential := [.token "t1"] } :
        VerifiablePresentation).Holder = ({} : Signer).ID ∧
    (SignVerifiablePresentationJWTClaims {} none
        { ID := "urn:uuid:p", VerifiableCredential := [.token "t1"] }
        0 "n").bind
      (fun t => ParseVerifiablePresentationFromJWT (.ok t)) =
      .error "did not find iss property in token" :=
  ⟨by decide, by decide, by decide, by decide⟩

/-- C2 (amended): for every non-empty presentation with no pre-existing
proof whose holder is non-empty and equals the signer's identity, signing
(the claim set handed to the signing primitive) and then decoding with
`ParseVerifiablePresentationFromJWT` yields a presentation whose holder,
id and embedded-credential list (element-wise, in the original order)
equal those of the original presentation. -/
theorem vp_sign_then_parse_preserves_fields (signer : Signer)
    (parameters : Option JWTVVPParameters) (pres : VerifiablePresentation)
    (now : Int) (nonce : String)
    (hne : pres.IsEmpty = false) (hproof : pres.Proof = none)
    (hh : pres.Holder ≠ "") (hhs : pres.Holder = signer.ID) :
    ((SignVerifiablePresentationJWTClaims signer parameters pres now
        nonce).bind
      (fun t => ParseVerifiablePresentationFromJWT (.ok t))).map
        (fun r => (r.2.Holder, r.2.ID, r.2.VerifiableCredential)) =
      .ok (pres.Holder, pres.ID, pres.VerifiableCredential) := by
  have hsid : signer.ID ≠ "" := hhs ▸ hh
  rcases parameters with _ | ps
  · by_cases hID : pres.ID = "" <;>
      simp [SignVerifiablePresentationJWTClaims,
            ParseVerifiablePresentationFromJWT, unmarshalVP, hne, hproof,
            hh, hhs, hsid, hID, Except.bind, Except.map, getClaim,
            getClaim_setClaim_same, getClaim_setClaim_of_ne]
  · rcases hA : ps.Audience with _ | a <;>
      by_cases hX : ps.Expiration > 0 <;>
        by_cases hID : pres.ID = "" <;>
          simp [SignVerifiablePresentationJWTClaims,
                ParseVerifiablePresentationFromJWT, unmarshalVP, hne,
                hproof, hh, hhs, hsid, hID, hA, hX, Except.bind,
                Except.map, getClaim, getClaim_setClaim_same,
                getClaim_setClaim_of_ne]

/-- Concrete presentation used by witnesses. -/
def wPres : VerifiablePresentation :=
  { Holder := "did:h", ID := "urn:uuid:p",
    VerifiableCredential := [.token "t1", .obj wCred] }

/-- Witness for C2 at a concrete presentation and matching signer. -/
theorem vp_sign_then_parse_preserves_fields_witness :
    ((SignVerifiablePresentationJWTClaims { ID := "did:h" } none wPres 0
        "n").bind
      (fun t => ParseVerifiablePresentationFromJWT (.ok t))).map
        (fun r => (r.2.Holder, r.2.ID, r.2.VerifiableCredential)) =
      .ok (wPres.Holder, wPres.ID, wPres.VerifiableCredential) :=
  vp_sign_then_parse_preserves_fields { ID := "did:h" } none wPres 0 "n"
    (by decide) (by decide) (by decide) (by decide)

/-- C10 counterexample: a token whose `iss` claim is the empty string but
which lacks a `vp` claim is rejected by
`ParseVerifiablePresentationFromJWT` (the vp extraction precedes the
issuer check), so parsing does not succeed for every token whose `iss`
claim is the empty string. -/
theorem parse_vp_empty_iss_without_vp_fails :
    getClaim [("iss", ClaimValue.str "")] "iss" =
        some (ClaimValue.str "") ∧
    ParseVerifiablePresentationFromJWT (.ok [("iss", ClaimValue.str "")]) =
      .error "did not find vp property in token" :=
  ⟨by decide, by decide⟩

/-- C10 (amended): on a parsed token carrying a deserializable `vp`
claim, the mandatory-issuer check rejects only an absent or non-string
`iss` claim: when the `iss` claim is the empty string, parsing succeeds
and the reconstructed presentation's holder is the empty string. -/
theorem parse_vp_empty_issuer_accepted (parsed : JWTToken)
    (v : ClaimValue) (pres0 : VerifiablePresentation)
    (hvp : getClaim parsed "vp" = some v) (hun : unmarshalVP v = .ok pres0)
    (hiss : getClaim parsed "iss" = some (.str "")) :
    (ParseVerifiablePresentationFromJWT (.ok parsed)).map
      (fun r => r.2.Holder) = .ok "" := by
  rcases hj : getClaim parsed "jti" with _ | v2
  · simp [ParseVerifiablePresentationFromJWT, hvp, hun, hiss, hj,
          Except.map]
  · rcases v2 with s | tv | l | c | p
    · by_cases hs : s = "" <;>
        simp [ParseVerifiablePresentationFromJWT, hvp, hun, hiss, hj, hs,
              Except.map]
    all_goals
      simp [ParseVerifiablePresentationFromJWT, hvp, hun, hiss, hj,
            Except.map]

/-- Witness for C10 at a concrete token with a `vp` claim and an
empty-string `iss` claim. -/
theorem parse_vp_empty_issuer_accepted_witness :
    (ParseVerifiablePresentationFromJWT (.ok
        [("vp", ClaimValue.vpObj { ID := "urn:uuid:q" }),
         ("iss", ClaimValue.str "")])).map
      (fun r => r.2.Holder) = .ok "" :=
  parse_vp_empty_issuer_accepted _ (ClaimValue.vpObj { ID := "urn:uuid:q" })
    { ID := "urn:uuid:q" } (by decide) (by decide) (by decide)

theorem audienceMatches_eq_false (verifier : Verifier) (l : List String)
    (h : ∀ a ∈ l, a ≠ verifier.ID ∧ a ≠ verifier.KID) :
    audienceMatches verifier l = false := by
  induction l with
  | nil => rfl
  | cons a rest ih =>
      have ha := h a (by simp)
      simp [audienceMatches, ha.1, ha.2]
      exact ih (fun b hb => h b (by simp [hb]))

/-- C4: with a resolver, a valid outer signature and a successfully
parsed token, when the parsed token's audience list is non-empty and
contains neither the verifier's identity nor its key-id, verification
fails with the audience-mismatch error reporting the expected
identity/key-id and the actual audience list; when the audience list is
empty the check is skipped entirely: the outcome does not depend on the
verifier at all. -/
theorem verifyVP_audience_check (verifier : Verifier)
    (parseResult : Except String JWTToken) (vpToken : JWTToken)
    (vp : VerifiablePresentation) (credVerify : CredVerifyOracle)
    (hparse : ParseVerifiablePresentationFromJWT parseResult =
      .ok (vpToken, vp)) :
    ((tokenAudience vpToken ≠ [] ∧
      ∀ a ∈ tokenAudience vpToken, a ≠ verifier.ID ∧ a ≠ verifier.KID) →
      VerifyVerifiablePresentationJWT true verifier (.ok ()) parseResult
          credVerify =
        .error ("audience mismatch: expected [" ++ verifier.ID ++
          "] or [" ++ verifier.KID ++ "], got " ++
          goFormatStringSlice (tokenAudience vpToken))) ∧
    (tokenAudience vpToken = [] →
      ∀ v' : Verifier,
        VerifyVerifiablePresentationJWT true verifier (.ok ()) parseResult
            credVerify =
          VerifyVerifiablePresentationJWT true v' (.ok ()) parseResult
            credVerify) := by
  constructor
  · rintro ⟨hne, hall⟩
    have hm := audienceMatches_eq_false verifier _ hall
    simp [VerifyVerifiablePresentationJWT, hparse, hne, hm,
          List.length_eq_zero]
  · intro hempty v'
    simp [VerifyVerifiablePresentationJWT, hparse, hempty]

/-- Concrete verifier used by witnesses. -/
def wVerifier : Verifier := { ID := "did:v", KID := "did:v#key-1" }

/-- Concrete parsed token with a `vp` claim, an `iss` claim and an
audience that excludes the verifier. -/
def wParsedVP : JWTToken :=
  [("vp", ClaimValue.vpObj { ID := "urn:uuid:q" }),
   ("iss", ClaimValue.str "did:h"), ("aud", ClaimValue.aud ["did:other"])]

/-- Witness for C4: a concrete audience mismatch. -/
theorem verifyVP_audience_check_witness :
    VerifyVerifiablePresentationJWT true wVerifier (.ok ())
        (.ok wParsedVP) (fun _ => .ok true) =
      .error ("audience mismatch: expected [" ++ wVerifier.ID ++
        "] or [" ++ wVerifier.KID ++ "], got " ++
        goFormatStringSlice (tokenAudience wParsedVP)) :=
  (verifyVP_audience_check wVerifier (.ok wParsedVP) wParsedVP
      { Holder := "did:h", ID := "urn:uuid:q" } (fun _ => .ok true)
      (by decide)).1 ⟨by decide, by decide⟩

theorem verifyPresentationCredentials_ok_iff
    (credVerify : CredVerifyOracle) (creds : List EmbeddedCredential)
    (start : Nat) :
    (verifyPresentationCredentials credVerify creds start).1 = .ok () ↔
      ∀ c ∈ creds, credVerify c = .ok true := by
  induction creds generalizing start with
  | nil => simp [verifyPresentationCredentials]
  | cons c rest ih =>
      rcases hc : credVerify c with e | b
      · simp [verifyPresentationCredentials, hc]
      · cases b
        · simp [verifyPresentationCredentials, hc]
        · simp [verifyPresentationCredentials, hc, ih]

theorem verifyPresentationCredentials_first_fail
    (credVerify : CredVerifyOracle) (creds : List EmbeddedCredential)
    (start i : Nat) (hi : i < creds.length)
    (hprev : ∀ j (hj : j < i),
      credVerify (creds.get ⟨j, Nat.lt_trans hj hi⟩) = .ok true) :
    (∀ e, credVerify (creds.get ⟨i, hi⟩) = .error e →
      verifyPresentationCredentials credVerify creds start =
        (.error ("verifying credential " ++ toString (start + i) ++
          ": " ++ e), i + 1)) ∧
    (credVerify (creds.get ⟨i, hi⟩) = .ok false →
      verifyPresentationCredentials credVerify creds start =
        (.error ("credential " ++ toString (start + i) ++
          " failed signature validation"), i + 1)) := by
  induction creds generalizing start i with
  | nil => exact absurd hi (Nat.not_lt_zero i)
  | cons c rest ih =>
      cases i with
      | zero =>
          constructor
          · intro e he
            simp only [List.get] at he
            simp [verifyPresentationCredentials, he]
          · intro he
            simp only [List.get] at he
            simp [verifyPresentationCredentials, he]
      | succ j =>
          have hj' : j < rest.length := Nat.lt_of_succ_lt_succ hi
          have h0 : credVerify c = .ok true := hprev 0 (Nat.succ_pos j)
          have hprev' : ∀ k (hk : k < j),
              credVerify (rest.get ⟨k, Nat.lt_trans hk hj'⟩) = .ok true :=
            fun k hk => hprev (k + 1) (Nat.succ_lt_succ hk)
          have harith : start + 1 + j = start + (j + 1) := by omega
          constructor
          · intro e he
            have hrec := (ih (start + 1) j hj' hprev').1 e he
            simp [verifyPresentationCredentials, h0, hrec, harith]
          · intro he
            have hrec := (ih (start + 1) j hj' hprev').2 he
            simp [verifyPresentationCredentials, h0, hrec, harith]

/-- C3: with a resolver, a valid outer signature, a successfully parsed
token and a passing audience check, `VerifyVerifiablePresentationJWT`
checks the embedded credentials strictly in presentation order: if the
credential at index `i` is the first to fail (verification error or
failed validation), the call aborts with an error identifying index `i`
and the underlying cause, exactly `i + 1` credentials are checked (none
at an index greater than `i`), and the call succeeds iff every embedded
credential verifies. -/
theorem verifyVP_checks_credentials_in_order (verifier : Verifier)
    (parseResult : Except String JWTToken) (vpToken : JWTToken)
    (vp : VerifiablePresentation) (credVerify : CredVerifyOracle)
    (hparse : ParseVerifiablePresentationFromJWT parseResult =
      .ok (vpToken, vp))
    (haud : tokenAudience vpToken = [] ∨
      audienceMatches verifier (tokenAudience vpToken) = true) :
    (∀ i (hi : i < vp.VerifiableCredential.length),
      (∀ j (hj : j < i),
        credVerify (vp.VerifiableCredential.get
          ⟨j, Nat.lt_trans hj hi⟩) = .ok true) →
      (∀ e, credVerify (vp.VerifiableCredential.get ⟨i, hi⟩) = .error e →
        VerifyVerifiablePresentationJWT true verifier (.ok ()) parseResult
            credVerify =
          .error ("verifying credential " ++ toString i ++ ": " ++ e) ∧
        (verifyPresentationCredentials credVerify
          vp.VerifiableCredential 0).2 = i + 1) ∧
      (credVerify (vp.VerifiableCredential.get ⟨i, hi⟩) = .ok false →
        VerifyVerifiablePresentationJWT true verifier (.ok ()) parseResult
            credVerify =
          .error ("credential " ++ toString i ++
            " failed signature validation") ∧
        (verifyPresentationCredentials credVerify
          vp.VerifiableCredential 0).2 = i + 1)) ∧
    (VerifyVerifiablePresentationJWT true verifier (.ok ()) parseResult
        credVerify = .ok (vpToken, vp) ↔
      ∀ c ∈ vp.VerifiableCredential, credVerify c = .ok true) := by
  constructor
  · intro i hi hprev
    constructor
    · intro e he
      have hf := (verifyPresentationCredentials_first_fail credVerify
          vp.VerifiableCredential 0 i hi hprev).1 e he
      constructor
      · rcases haud with h | h <;>
          simp [VerifyVerifiablePresentationJWT, hparse, h, hf]
      · simp [hf]
    · intro he
      have hf := (verifyPresentationCredentials_first_fail credVerify
          vp.VerifiableCredential 0 i hi hprev).2 he
      constructor
      · rcases haud with h | h <;>
          simp [VerifyVerifiablePresentationJWT, hparse, h, hf]
      · simp [hf]
  · have hiff := verifyPresentationCredentials_ok_iff credVerify
      vp.VerifiableCredential 0
    rcases hloop : (verifyPresentationCredentials credVerify
        vp.VerifiableCredential 0).1 with e | u
    · rw [← hiff, hloop]
      rcases haud with h | h <;>
        simp [VerifyVerifiablePresentationJWT, hparse, h, hloop]
    · cases u
      rw [← hiff, hloop]
      rcases haud with h | h <;>
        simp [VerifyVerifiablePresentationJWT, hparse, h, hloop]

/-- The concrete per-credential oracle used by the C3 witness: the second
credential fails signature validation. -/
def wCredVerify : CredVerifyOracle :=
  fun c => if c = .token "t-bad" then .ok false else .ok true

/-- Concrete presentation with three embedded credentials, the second of
which fails under `wCredVerify`. -/
def wVP3 : VerifiablePresentation :=
  { Holder := "did:h",
    VerifiableCredential := [.token "t-ok", .token "t-bad",
                             .token "t-after"] }

/-- Concrete parsed token carrying `wVP3`. -/
def wParsedVP3 : JWTToken :=
  [("vp", ClaimValue.vpObj wVP3), ("iss", ClaimValue.str "did:h")]

/-- Witness for C3: three embedded credentials where the second fails;
the error reports index 1 and exactly two credentials are checked. -/
theorem verifyVP_checks_credentials_in_order_witness :
    VerifyVerifiablePresentationJWT true wVerifier (.ok ())
        (.ok wParsedVP3) wCredVerify =
      .error ("credential " ++ toString 1 ++
        " failed signature validation") ∧
    (verifyPresentationCredentials wCredVerify
      wVP3.VerifiableCredential 0).2 = 1 + 1 :=
  ((verifyVP_checks_credentials_in_order wVerifier (.ok wParsedVP3)
      wParsedVP3 wVP3 wCredVerify (by decide) (Or.inl (by decide))).1 1
    (by decide)
    (fun j hj => by
      have hj0 : j = 0 := by omega
      subst hj0
      rfl)).2 (by rfl)

end SSI
